import Mathlib

/-
  Verification of the Dragonfly flight-control-board (FCB) core against its
  natural-language specification.

  Shallow embedding conventions:
  * float32_t values are modelled as real numbers (exact arithmetic);
  * 3-element float arrays become the Vec3 structure, row-major 3x3
    arm_matrix_instance_f32 data becomes the Mat3 structure;
  * the file-scoped mutable globals (DCM/DCMInv, the PID controller bank,
    the motor-control value struct and task handle) become explicit state
    records threaded through the embedded functions;
  * the compile-time PID form switch (PID_USE_CLASSIC_FORM /
    PID_USE_PARALLEL_FORM) becomes an explicit PIDForm parameter.
-/

namespace Fcb

/-! ## Vectors and matrices (rotation_transformation.c) -/

/-- A 3-component float vector, modelling a float32_t[3] array over the reals. -/
@[ext]
structure Vec3 where
  x : ℝ
  y : ℝ
  z : ℝ

/-- A 3x3 matrix, modelling the row-major data of an arm_matrix_instance_f32. -/
@[ext]
structure Mat3 where
  m11 : ℝ
  m12 : ℝ
  m13 : ℝ
  m21 : ℝ
  m22 : ℝ
  m23 : ℝ
  m31 : ℝ
  m32 : ℝ
  m33 : ℝ

/-- Matrix transpose, modelling arm_mat_trans_f32. -/
noncomputable def mat3Transpose (a : Mat3) : Mat3 :=
  ⟨a.m11, a.m21, a.m31, a.m12, a.m22, a.m32, a.m13, a.m23, a.m33⟩

/-- Matrix product, modelling arm_mat_mult_f32. -/
noncomputable def mat3Mul (a b : Mat3) : Mat3 :=
  ⟨a.m11 * b.m11 + a.m12 * b.m21 + a.m13 * b.m31,
   a.m11 * b.m12 + a.m12 * b.m22 + a.m13 * b.m32,
   a.m11 * b.m13 + a.m12 * b.m23 + a.m13 * b.m33,
   a.m21 * b.m11 + a.m22 * b.m21 + a.m23 * b.m31,
   a.m21 * b.m12 + a.m22 * b.m22 + a.m23 * b.m32,
   a.m21 * b.m13 + a.m22 * b.m23 + a.m23 * b.m33,
   a.m31 * b.m11 + a.m32 * b.m21 + a.m33 * b.m31,
   a.m31 * b.m12 + a.m32 * b.m22 + a.m33 * b.m32,
   a.m31 * b.m13 + a.m32 * b.m23 + a.m33 * b.m33⟩

/-- The 3x3 identity matrix. -/
noncomputable def mat3Id : Mat3 := ⟨1, 0, 0, 0, 1, 0, 0, 0, 1⟩

/-- Matrix-vector product (row-major matrix applied to a column vector). -/
noncomputable def mat3MulVec (a : Mat3) (v : Vec3) : Vec3 :=
  ⟨a.m11 * v.x + a.m12 * v.y + a.m13 * v.z,
   a.m21 * v.x + a.m22 * v.y + a.m23 * v.z,
   a.m31 * v.x + a.m32 * v.y + a.m33 * v.z⟩

/-- The DCMUpdate array built inside UpdateRotationMatrix from roll, pitch
and yaw (Z-Y-X Euler convention), entry for entry as in the source. -/
noncomputable def eulerDCM (roll pitch yaw : ℝ) : Mat3 :=
  ⟨Real.cos pitch * Real.cos yaw,
   Real.cos pitch * Real.sin yaw,
   -Real.sin pitch,
   -Real.cos roll * Real.sin yaw + Real.sin roll * Real.sin pitch * Real.cos yaw,
   Real.cos roll * Real.cos yaw + Real.sin roll * Real.sin pitch * Real.sin yaw,
   Real.sin roll * Real.cos pitch,
   Real.sin roll * Real.sin yaw + Real.cos roll * Real.sin pitch * Real.cos yaw,
   -Real.sin roll * Real.cos yaw + Real.cos roll * Real.sin pitch * Real.sin yaw,
   Real.cos roll * Real.cos pitch⟩

/-- The two file-scoped globals of rotation_transformation.c: the direction
cosine matrix DCM and its stored inverse DCMInv. -/
structure RotationState where
  DCM : Mat3
  DCMInv : Mat3

/-- UpdateRotationMatrix: recomputes the DCM from roll, pitch and yaw and
stores its transpose as the inverse (arm_mat_trans_f32 on the fresh DCM). -/
noncomputable def UpdateRotationMatrix (s : RotationState) (roll pitch yaw : ℝ) : RotationState :=
  { s with
    DCM := eulerDCM roll pitch yaw
    DCMInv := mat3Transpose (eulerDCM roll pitch yaw) }

/-- The DCMInvInit literal written into DCMInv by InitRotationMatrix before
UpdateRotationMatrix is called. The source literal reads 1,0,1 / 0,1,0 /
0,0,1 (note the stray 1 in the first row). -/
noncomputable def DCMInvInit : Mat3 := ⟨1, 0, 1, 0, 1, 0, 0, 0, 1⟩

/-- InitRotationMatrix: first initializes DCMInv to the DCMInvInit literal,
then calls UpdateRotationMatrix(0, 0, 0), which overwrites both matrices. -/
noncomputable def InitRotationMatrix (s : RotationState) : RotationState :=
  UpdateRotationMatrix { s with DCMInv := DCMInvInit } 0 0 0

/-! ## Claims C6 and C7 -/

/-- C6: after every call to UpdateRotationMatrix(roll, pitch, yaw), the
stored inverse DCMInv equals the transpose of the stored DCM, and the
product DCM * DCMInv is exactly the 3x3 identity matrix (proved here for
all real roll, pitch and yaw, hence in particular on the valid range;
exact real arithmetic stands in for the floating tolerance). -/
theorem UpdateRotationMatrix_orthonormal (s : RotationState) (roll pitch yaw : ℝ) :
    (UpdateRotationMatrix s roll pitch yaw).DCMInv
      = mat3Transpose (UpdateRotationMatrix s roll pitch yaw).DCM
    ∧ mat3Mul (UpdateRotationMatrix s roll pitch yaw).DCM
        (UpdateRotationMatrix s roll pitch yaw).DCMInv = mat3Id := by
  have Hr := Real.sin_sq_add_cos_sq roll
  have Hp := Real.sin_sq_add_cos_sq pitch
  have Hy := Real.sin_sq_add_cos_sq yaw
  refine ⟨rfl, ?_⟩
  ext <;> simp only [UpdateRotationMatrix, eulerDCM, mat3Transpose, mat3Mul, mat3Id]
  · linear_combination (Real.cos pitch) ^ 2 * Hy + Hp
  · linear_combination (Real.cos pitch * Real.sin roll * Real.sin pitch) * Hy
  · linear_combination (Real.cos pitch * Real.cos roll * Real.sin pitch) * Hy
  · linear_combination (Real.cos pitch * Real.sin roll * Real.sin pitch) * Hy
  · linear_combination
      ((Real.cos roll) ^ 2 + (Real.sin roll) ^ 2 * (Real.sin pitch) ^ 2) * Hy
        + (Real.sin roll) ^ 2 * Hp + Hr
  · linear_combination
      (Real.sin roll * Real.cos roll * (Real.sin pitch) ^ 2
        - Real.cos roll * Real.sin roll) * Hy + Real.sin roll * Real.cos roll * Hp
  · linear_combination (Real.cos pitch * Real.cos roll * Real.sin pitch) * Hy
  · linear_combination
      (Real.sin roll * Real.cos roll * (Real.sin pitch) ^ 2
        - Real.cos roll * Real.sin roll) * Hy + Real.sin roll * Real.cos roll * Hp
  · linear_combination
      ((Real.sin roll) ^ 2 + (Real.cos roll) ^ 2 * (Real.sin pitch) ^ 2) * Hy
        + (Real.cos roll) ^ 2 * Hp + Hr

/-- C7: after InitRotationMatrix returns, both the DCM and the stored
inverse DCMInv equal the 3x3 identity (the stray entry in the DCMInvInit
literal is dead: UpdateRotationMatrix(0,0,0) overwrites both matrices). -/
theorem InitRotationMatrix_identity (s : RotationState) :
    (InitRotationMatrix s).DCM = mat3Id ∧ (InitRotationMatrix s).DCMInv = mat3Id := by
  constructor <;>
    · ext <;>
        simp [InitRotationMatrix, UpdateRotationMatrix, eulerDCM, mat3Transpose,
          mat3Id, Real.sin_zero, Real.cos_zero]

/-! ## Vector helpers and magnetometer attitude (rotation_transformation.c) -/

/-- Dot product of two 3-element vectors, modelling arm_dot_prod_f32 with
blockSize 3. -/
noncomputable def arm_dot_prod (a b : Vec3) : ℝ :=
  a.x * b.x + a.y * b.y + a.z * b.z

/-- Scaling of a 3-element vector, modelling arm_scale_f32 with blockSize 3. -/
noncomputable def arm_scale_f32 (src : Vec3) (scaleVal : ℝ) : Vec3 :=
  ⟨src.x * scaleVal, src.y * scaleVal, src.z * scaleVal⟩

/-- The local norm computed inside Vector3DNormalize:
sqrt of the dot product of the source vector with itself. -/
noncomputable def vector3DNorm (srcVector : Vec3) : ℝ :=
  Real.sqrt (arm_dot_prod srcVector srcVector)

/-- Vector3DNormalize: scales the source vector by 1.0/norm. The source has
no special case for a zero norm: it always divides (in IEEE float a zero
norm yields an infinite scale and NaN components; over the reals we keep
the division exactly as written). -/
noncomputable def Vector3DNormalize (srcVector : Vec3) : Vec3 :=
  arm_scale_f32 srcVector (1 / vector3DNorm srcVector)

/-- Vector3DCrossProduct: standard determinant-expansion cross product. -/
noncomputable def Vector3DCrossProduct (srcVector1 srcVector2 : Vec3) : Vec3 :=
  ⟨srcVector1.y * srcVector2.z - srcVector1.z * srcVector2.y,
   srcVector1.z * srcVector2.x - srcVector1.x * srcVector2.z,
   srcVector1.x * srcVector2.y - srcVector1.y * srcVector2.x⟩

/-- Two-argument arctangent as in the C standard library: atan2 y x is the
angle of the point (x, y). -/
noncomputable def atan2 (y x : ℝ) : ℝ :=
  if x > 0 then Real.arctan (y / x)
  else if x < 0 then
    (if y ≥ 0 then Real.arctan (y / x) + Real.pi else Real.arctan (y / x) - Real.pi)
  else
    (if y > 0 then Real.pi / 2 else if y < 0 then -(Real.pi / 2) else 0)

/-- GetAttitudeFromMagnetometer: normalizes both vectors, takes their cross
product as rotation axis and the arccosine of their dot product as rotation
angle, forms the axis/angle rotation matrix elements and extracts Euler
angles from r23, r33, r13, r12, r11. The destination array dstAttitude
becomes the returned Vec3 with x = roll, y = pitch, z = yaw. -/
noncomputable def GetAttitudeFromMagnetometer
    (bodyMagneticReadings inertialMagneticVector : Vec3) : Vec3 :=
  let bodyMagneticNormalized := Vector3DNormalize bodyMagneticReadings
  let inertialMagneticNormalized := Vector3DNormalize inertialMagneticVector
  let rotationAxisVector :=
    Vector3DCrossProduct bodyMagneticNormalized inertialMagneticNormalized
  let dotProd := arm_dot_prod bodyMagneticNormalized inertialMagneticNormalized
  let rotationAngle := Real.arccos dotProd
  let cosAngle := Real.cos rotationAngle
  let sinAngle := Real.sin rotationAngle
  let r11 := cosAngle + rotationAxisVector.x * rotationAxisVector.x * (1 - cosAngle)
  let r12 := rotationAxisVector.x * rotationAxisVector.y * (1 - cosAngle)
    - rotationAxisVector.z * sinAngle
  let r13 := rotationAxisVector.x * rotationAxisVector.z * (1 - cosAngle)
    + rotationAxisVector.y * sinAngle
  let r23 := rotationAxisVector.y * rotationAxisVector.z * (1 - cosAngle)
    - rotationAxisVector.x * sinAngle
  let r33 := cosAngle + rotationAxisVector.z * rotationAxisVector.z * (1 - cosAngle)
  ⟨atan2 r23 r33, Real.arcsin (-r13), atan2 r12 r11⟩

/-! ## Claim C4 -/

/-- C4: the source of Vector3DNormalize has no guard on a zero-length
input: for the all-zero source vector the computed norm is 0 and the code
divides by it (in IEEE-754 float this puts non-finite values in the
destination, not a safe fallback). For every source vector of nonzero
norm, the destination has unit 2-norm as claimed. -/
theorem Vector3DNormalize_zero_norm_divides :
    vector3DNorm ⟨0, 0, 0⟩ = 0
    ∧ ∀ v : Vec3, vector3DNorm v ≠ 0 →
        arm_dot_prod (Vector3DNormalize v) (Vector3DNormalize v) = 1 := by
  constructor
  · simp [vector3DNorm, arm_dot_prod]
  · intro v hn
    have hd : 0 ≤ arm_dot_prod v v := by
      simp only [arm_dot_prod]
      nlinarith [sq_nonneg v.x, sq_nonneg v.y, sq_nonneg v.z]
    have hsq : vector3DNorm v * vector3DNorm v = arm_dot_prod v v :=
      Real.mul_self_sqrt hd
    simp only [Vector3DNormalize, arm_scale_f32, arm_dot_prod] at hsq ⊢
    field_simp
    linear_combination (-1) * hsq

/-- Witness for C4: the vector (3, 4, 0) has norm 5 and normalizes to unit
length. -/
theorem Vector3DNormalize_zero_norm_divides_witness :
    vector3DNorm ⟨3, 4, 0⟩ ≠ 0
    ∧ arm_dot_prod (Vector3DNormalize ⟨3, 4, 0⟩) (Vector3DNormalize ⟨3, 4, 0⟩) = 1 := by
  have h5 : vector3DNorm ⟨3, 4, 0⟩ = 5 := by
    have : arm_dot_prod ⟨3, 4, 0⟩ ⟨3, 4, 0⟩ = 25 := by
      simp [arm_dot_prod]; norm_num
    rw [vector3DNorm, this, show (25 : ℝ) = 5 ^ 2 by norm_num,
      Real.sqrt_sq (by norm_num)]
  have hn : vector3DNorm ⟨3, 4, 0⟩ ≠ 0 := by rw [h5]; norm_num
  exact ⟨hn, Vector3DNormalize_zero_norm_divides.2 ⟨3, 4, 0⟩ hn⟩

/-! ## Claim C2 -/

/-- C2: the attitude round trip fails. Rotating the inertial reference
vector (1, 0, 0) by the Euler angles (0, pi/4, 0) via the DCM yields the
body reading (sqrt 2 / 2, 0, sqrt 2 / 2); feeding both vectors back into
GetAttitudeFromMagnetometer returns the attitude (0, -(pi/6), 0) instead of
recovering (0, pi/4, 0): the pitch is off by pi/4 + pi/6, far beyond any
numerical tolerance (the cross-product rotation axis, of length sin of the
rotation angle, is used unnormalized in the axis/angle matrix). -/
theorem GetAttitudeFromMagnetometer_roundtrip_failure :
    mat3MulVec (eulerDCM 0 (Real.pi / 4) 0) ⟨1, 0, 0⟩
      = ⟨Real.sqrt 2 / 2, 0, Real.sqrt 2 / 2⟩
    ∧ GetAttitudeFromMagnetometer ⟨Real.sqrt 2 / 2, 0, Real.sqrt 2 / 2⟩ ⟨1, 0, 0⟩
      = ⟨0, -(Real.pi / 6), 0⟩
    ∧ -(Real.pi / 6) ≠ Real.pi / 4 := by
  have hs2 : Real.sqrt 2 * Real.sqrt 2 = 2 :=
    Real.mul_self_sqrt (by norm_num)
  have h_half : Real.sqrt 2 / 2 * (Real.sqrt 2 / 2) = 1 / 2 := by
    rw [div_mul_div_comm, hs2]; norm_num
  refine ⟨?_, ?_, ?_⟩
  · simp [eulerDCM, mat3MulVec, Real.sin_zero, Real.cos_zero,
      Real.cos_pi_div_four, Real.sin_pi_div_four, Vec3.mk.injEq]
  · have hNb : Vector3DNormalize ⟨Real.sqrt 2 / 2, 0, Real.sqrt 2 / 2⟩
        = ⟨Real.sqrt 2 / 2, 0, Real.sqrt 2 / 2⟩ := by
      have hdot : arm_dot_prod ⟨Real.sqrt 2 / 2, 0, Real.sqrt 2 / 2⟩
          ⟨Real.sqrt 2 / 2, 0, Real.sqrt 2 / 2⟩ = 1 := by
        simp only [arm_dot_prod]
        linear_combination 2 * h_half
      simp [Vector3DNormalize, vector3DNorm, hdot, arm_scale_f32]
    have hNi : Vector3DNormalize ⟨1, 0, 0⟩ = ⟨1, 0, 0⟩ := by
      have hdot : arm_dot_prod ⟨1, 0, 0⟩ ⟨1, 0, 0⟩ = 1 := by simp [arm_dot_prod]
      simp [Vector3DNormalize, vector3DNorm, hdot, arm_scale_f32]
    have hcross : Vector3DCrossProduct ⟨Real.sqrt 2 / 2, 0, Real.sqrt 2 / 2⟩ ⟨1, 0, 0⟩
        = ⟨0, Real.sqrt 2 / 2, 0⟩ := by
      simp [Vector3DCrossProduct]
    have hdotbi : arm_dot_prod ⟨Real.sqrt 2 / 2, 0, Real.sqrt 2 / 2⟩ ⟨1, 0, 0⟩
        = Real.sqrt 2 / 2 := by
      simp [arm_dot_prod]
    have hb1 : -1 ≤ Real.sqrt 2 / 2 := by
      linarith [Real.sqrt_nonneg 2]
    have hb2 : Real.sqrt 2 / 2 ≤ 1 := by
      nlinarith [hs2, Real.sqrt_nonneg 2]
    have hcos : Real.cos (Real.arccos (Real.sqrt 2 / 2)) = Real.sqrt 2 / 2 :=
      Real.cos_arccos hb1 hb2
    have hsin : Real.sin (Real.arccos (Real.sqrt 2 / 2)) = Real.sqrt 2 / 2 := by
      rw [Real.sin_arccos]
      rw [show (1 : ℝ) - (Real.sqrt 2 / 2) ^ 2 = 1 / 2 by
        rw [div_pow, Real.sq_sqrt (by norm_num : (0:ℝ) ≤ 2)]; norm_num]
      rw [show (1 / 2 : ℝ) = (Real.sqrt 2 / 2) ^ 2 by
        rw [div_pow, Real.sq_sqrt (by norm_num : (0:ℝ) ≤ 2)]; norm_num]
      exact Real.sqrt_sq (by positivity)
    have hpos : (0 : ℝ) < Real.sqrt 2 / 2 := by positivity
    have hatan : atan2 0 (Real.sqrt 2 / 2) = 0 := by
      rw [atan2, if_pos hpos, zero_div, Real.arctan_zero]
    have harcsin : Real.arcsin (-(1 / 2)) = -(Real.pi / 6) := by
      rw [Real.arcsin_neg,
        show (1 / 2 : ℝ) = Real.sin (Real.pi / 6) from Real.sin_pi_div_six.symm,
        Real.arcsin_sin (by linarith [Real.pi_pos]) (by linarith [Real.pi_pos])]
    simp only [GetAttitudeFromMagnetometer, hNb, hNi, hcross, hdotbi, hcos, hsin]
    simp only [mul_zero, zero_mul, mul_one, one_mul, zero_sub, sub_zero,
      add_zero, zero_add, neg_zero]
    rw [h_half, hatan, harcsin]
  · intro h
    have := Real.pi_pos
    linarith

/-! ## PID control (pid_control.c) -/

/-- The PIDController_TypeDef struct, fields in source order. -/
@[ext]
structure PIDController where
  K : ℝ
  Ti : ℝ
  Td : ℝ
  Tt : ℝ
  Beta : ℝ
  Gamma : ℝ
  N : ℝ
  P : ℝ
  I : ℝ
  D : ℝ
  preState : ℝ
  preRef : ℝ
  upperSatLimit : ℝ
  lowerSatLimit : ℝ
  ctrlSignalScaling : ℝ
  ctrlSignalOffset : ℝ
  useIntegralAction : Bool

/-- The compile-time switch between the PID_USE_CLASSIC_FORM and
PID_USE_PARALLEL_FORM variants of UpdatePIDControl, made an explicit
parameter of the embedding. -/
inductive PIDForm where
  | classic
  | parallel

/-- UpdatePIDControl, statement for statement from the source. CONTROL_PERIOD
(FLIGHT_CONTROL_TASK_PERIOD / 1000.0, from the absent flight_control.h) is
the dt parameter. Returns the updated controller struct and the returned
(saturated) control signal; tmpControlSignal is the pre-saturation value. -/
noncomputable def UpdatePIDControl (form : PIDForm) (dt : ℝ) (ctrlParams : PIDController)
    (ctrlState refSignal : ℝ) : PIDController × ℝ :=
  let newP := ctrlParams.K * (ctrlParams.Beta * refSignal - ctrlState)
  let newI :=
    match form with
    | .classic =>
        if ctrlParams.Ti > 0 then
          ctrlParams.I + ctrlParams.K * dt / ctrlParams.Ti * (refSignal - ctrlState)
        else ctrlParams.I
    | .parallel =>
        if ctrlParams.useIntegralAction then
          ctrlParams.I + ctrlParams.Ti * dt * (refSignal - ctrlState)
        else ctrlParams.I
  let newD :=
    match form with
    | .classic =>
        ctrlParams.Td / (ctrlParams.Td + ctrlParams.N * dt) * ctrlParams.D
          + ctrlParams.K * ctrlParams.Td * ctrlParams.N / (ctrlParams.Td + ctrlParams.N * dt)
            * (ctrlParams.Gamma * (refSignal - ctrlParams.preRef)
                - (ctrlState - ctrlParams.preState))
    | .parallel =>
        ctrlParams.Td / (ctrlParams.Td + ctrlParams.N * dt) * ctrlParams.D
          + ctrlParams.Td * ctrlParams.N / (ctrlParams.Td + ctrlParams.N * dt)
            * (ctrlParams.Gamma * (refSignal - ctrlParams.preRef)
                - (ctrlState - ctrlParams.preState))
  let tmpControlSignal :=
    (newP + newI + newD + ctrlParams.ctrlSignalOffset) * ctrlParams.ctrlSignalScaling
  let controlSignal :=
    if tmpControlSignal < ctrlParams.lowerSatLimit then ctrlParams.lowerSatLimit
    else if tmpControlSignal > ctrlParams.upperSatLimit then ctrlParams.upperSatLimit
    else tmpControlSignal
  let newI2 :=
    if ctrlParams.useIntegralAction then
      newI + dt / ctrlParams.Tt * (tmpControlSignal - controlSignal)
    else newI
  ({ ctrlParams with
      P := newP, I := newI2, D := newD, preState := ctrlState, preRef := refSignal },
   controlSignal)

/-- Repeated calls of UpdatePIDControl with a constant state and reference
signal (the controller struct is the only thing that evolves). -/
noncomputable def iteratePID (form : PIDForm) (dt : ℝ) (c : PIDController)
    (ctrlState refSignal : ℝ) : ℕ → PIDController
  | 0 => c
  | n + 1 =>
    (UpdatePIDControl form dt (iteratePID form dt c ctrlState refSignal n)
      ctrlState refSignal).1

/-- Modelled from the spec: the outbound CtrlSignals_TypeDef struct of four
control signals (thrust, roll moment, pitch moment, yaw moment); its
declaration lives in the absent flight_control.h. -/
structure CtrlSignals_TypeDef where
  Thrust : ℝ
  RollMoment : ℝ
  PitchMoment : ℝ
  YawMoment : ℝ

/-- UpdatePIDControlSignals. The Thrust line is commented out in the source
(marked TODO control altitude later), so only the three moment fields are
written. The state/reference getters (GetRollAngle and friends, defined in
absent translation units) are passed in as values, and the three controller
globals are threaded explicitly. -/
noncomputable def UpdatePIDControlSignals (form : PIDForm) (dt : ℝ)
    (rollCtrl pitchCtrl yawCtrl : PIDController)
    (rollAngle pitchAngle yawAngle rollRef pitchRef yawRateRef : ℝ)
    (ctrlSignals : CtrlSignals_TypeDef) :
    CtrlSignals_TypeDef × PIDController × PIDController × PIDController :=
  let r := UpdatePIDControl form dt rollCtrl rollAngle rollRef
  let p := UpdatePIDControl form dt pitchCtrl pitchAngle pitchRef
  let y := UpdatePIDControl form dt yawCtrl yawAngle yawRateRef
  ({ ctrlSignals with RollMoment := r.2, PitchMoment := p.2, YawMoment := y.2 },
   r.1, p.1, y.1)

/-! ## Claim C1 -/

/-- A concrete controller with integral action enabled: K = 1, Ti = 1,
Td = 0, Tt = 1, Beta = 1, Gamma = 0, N = 1, running terms and history 0,
saturation limits 1 and -1, scaling 1, offset 0. -/
noncomputable def c1ex : PIDController :=
  ⟨1, 1, 0, 1, 1, 0, 1, 0, 0, 0, 0, 0, 1, -1, 1, 0, true⟩

/-- C1: the back-calculation step has the wrong sign. Driving c1ex
(parallel form, dt = 1) with reference 10 and state 0, the pre-saturation
signal is 20, far above the upper limit 1, the returned signal is clamped
to 1, and I jumps from 0 to 29: the integral accumulation contributes +10
and the back-calculation contributes a further +19 = dt/Tt*(20 - 1)
instead of pulling I back. A second identical call takes I to 87, so under
sustained saturation I grows without bound instead of staying bounded. -/
theorem UpdatePIDControl_backcalculation_windup :
    (UpdatePIDControl .parallel 1 c1ex 0 10).1.I = 29
    ∧ (UpdatePIDControl .parallel 1 c1ex 0 10).2 = 1
    ∧ (iteratePID .parallel 1 c1ex 0 10 2).I = 87
    ∧ c1ex.I = 0 := by
  have h1 : UpdatePIDControl .parallel 1 c1ex 0 10
      = ({ c1ex with P := 10, I := 29, D := 0, preState := 0, preRef := 10 }, 1) := by
    norm_num [UpdatePIDControl, c1ex, Prod.ext_iff, PIDController.ext_iff]
  have h2 : iteratePID .parallel 1 c1ex 0 10 2
      = (UpdatePIDControl .parallel 1
          { c1ex with P := 10, I := 29, D := 0, preState := 0, preRef := 10 } 0 10).1 := by
    simp only [iteratePID, h1]
  refine ⟨by rw [h1], by rw [h1], ?_, rfl⟩
  rw [h2]
  norm_num [UpdatePIDControl, c1ex]

/-! ## Claim C5 -/

/-- A concrete controller with integral action disabled but Ti = 1 > 0:
K = 1, Ti = 1, Td = 0, Tt = 1, Beta = 1, Gamma = 0, N = 1, running terms
and history 0, saturation limits 100 and -100, scaling 1, offset 0. -/
noncomputable def c5ex : PIDController :=
  ⟨1, 1, 0, 1, 1, 0, 1, 0, 0, 0, 0, 0, 100, -100, 1, 0, false⟩

/-- C5 counterexample: in the classic-form build the integral accumulation
is guarded by Ti greater than 0, not by useIntegralAction, so a call on
c5ex (whose useIntegralAction is false, Ti = 1) with reference 1 and
state 0 changes I from 0 to 1. -/
theorem UpdatePIDControl_classic_ignores_flag :
    (UpdatePIDControl .classic 1 c5ex 0 1).1.I = 1
    ∧ c5ex.useIntegralAction = false
    ∧ c5ex.I = 0 := by
  refine ⟨?_, rfl, rfl⟩
  norm_num [UpdatePIDControl, c5ex]

/-- C5 amended: in the parallel-form build, UpdatePIDControl leaves the I
field unchanged whenever useIntegralAction is false (both the accumulation
and the back-calculation step are guarded by the flag there). -/
theorem UpdatePIDControl_parallel_integral_flag (dt : ℝ) (c : PIDController)
    (ctrlState refSignal : ℝ) (h : c.useIntegralAction = false) :
    (UpdatePIDControl .parallel dt c ctrlState refSignal).1.I = c.I := by
  simp [UpdatePIDControl, h]

/-- Witness for the amended C5 theorem at the concrete controller c5ex. -/
theorem UpdatePIDControl_parallel_integral_flag_witness :
    c5ex.useIntegralAction = false
    ∧ (UpdatePIDControl .parallel 1 c5ex 0 1).1.I = c5ex.I :=
  ⟨rfl, UpdatePIDControl_parallel_integral_flag 1 c5ex 0 1 rfl⟩

/-! ## Claim C3 -/

/-- A controller whose parameters are all zero (and integral action off);
its control signal output is 0. -/
noncomputable def czero : PIDController :=
  ⟨0, 0, 0, 0, 0, 0, 0, 0, 0, 0, 0, 0, 0, 0, 0, 0, false⟩

/-- C3 counterexample: calling UpdatePIDControlSignals on a control-signal
struct whose Thrust field holds 42 leaves Thrust at 42 (the Thrust
assignment is commented out in the source), while RollMoment is written
(here with the zero controller it becomes 0, overwriting the old 7). -/
theorem UpdatePIDControlSignals_thrust_retained :
    (UpdatePIDControlSignals .parallel 1 czero czero czero 0 0 0 0 0 0
        ⟨42, 7, 7, 7⟩).1.Thrust = 42
    ∧ (UpdatePIDControlSignals .parallel 1 czero czero czero 0 0 0 0 0 0
        ⟨42, 7, 7, 7⟩).1.RollMoment = 0 := by
  constructor
  · rfl
  · norm_num [UpdatePIDControlSignals, UpdatePIDControl, czero]

/-- C3 amended: every call to UpdatePIDControlSignals assigns RollMoment,
PitchMoment and YawMoment (each to the corresponding UpdatePIDControl
return value), while Thrust always retains its pre-call value because its
assignment is commented out. -/
theorem UpdatePIDControlSignals_assigns_three_moments (form : PIDForm) (dt : ℝ)
    (rollCtrl pitchCtrl yawCtrl : PIDController)
    (rollAngle pitchAngle yawAngle rollRef pitchRef yawRateRef : ℝ)
    (ctrlSignals : CtrlSignals_TypeDef) :
    (UpdatePIDControlSignals form dt rollCtrl pitchCtrl yawCtrl rollAngle pitchAngle
        yawAngle rollRef pitchRef yawRateRef ctrlSignals).1.Thrust = ctrlSignals.Thrust
    ∧ (UpdatePIDControlSignals form dt rollCtrl pitchCtrl yawCtrl rollAngle pitchAngle
        yawAngle rollRef pitchRef yawRateRef ctrlSignals).1.RollMoment
      = (UpdatePIDControl form dt rollCtrl rollAngle rollRef).2
    ∧ (UpdatePIDControlSignals form dt rollCtrl pitchCtrl yawCtrl rollAngle pitchAngle
        yawAngle rollRef pitchRef yawRateRef ctrlSignals).1.PitchMoment
      = (UpdatePIDControl form dt pitchCtrl pitchAngle pitchRef).2
    ∧ (UpdatePIDControlSignals form dt rollCtrl pitchCtrl yawCtrl rollAngle pitchAngle
        yawAngle rollRef pitchRef yawRateRef ctrlSignals).1.YawMoment
      = (UpdatePIDControl form dt yawCtrl yawAngle yawRateRef).2 :=
  ⟨rfl, rfl, rfl, rfl⟩

/-! ## Claim C8 -/

/-- A concrete controller at equilibrium except for its stored history:
K = 1, Ti = 1, Td = 1, Tt = 1, Beta = 1, Gamma = 0, N = 1, running terms
and history 0, saturation limits 100 and -100, scaling 1, offset 0,
integral action off. -/
noncomputable def c8ex : PIDController :=
  ⟨1, 1, 1, 1, 1, 0, 1, 0, 0, 0, 0, 0, 100, -100, 1, 0, false⟩

/-- C8 counterexample: c8ex is at equilibrium (state 1 = Beta * reference
1), has useIntegralAction false and I and D starting at zero, and
offset*scaling = 0 — yet the first call (parallel form, dt = 1) returns
-1/2, not offset*scaling: the filtered derivative reacts to the stored
preState/preRef history (0, 0), which does not match the constant state
and reference. -/
theorem UpdatePIDControl_equilibrium_first_call_deviates :
    (UpdatePIDControl .parallel 1 c8ex 1 1).2 = -(1 / 2)
    ∧ (1 : ℝ) = c8ex.Beta * 1
    ∧ c8ex.I = 0 ∧ c8ex.D = 0 ∧ c8ex.useIntegralAction = false
    ∧ c8ex.ctrlSignalOffset * c8ex.ctrlSignalScaling = 0
    ∧ (-(1 / 2) : ℝ) ≠ 0 := by
  refine ⟨?_, by norm_num [c8ex], rfl, rfl, rfl, by norm_num [c8ex], by norm_num⟩
  norm_num [UpdatePIDControl, c8ex]

/-- One equilibrium call of UpdatePIDControl in parallel form with integral
action off, zero running I and D terms, matched history and an in-range
resting output: the controller is a fixed point up to the P field, and the
returned signal is exactly offset times scaling. -/
theorem UpdatePIDControl_parallel_equilibrium_step (dt : ℝ) (c : PIDController)
    (refSignal : ℝ)
    (hflag : c.useIntegralAction = false) (hI : c.I = 0) (hD : c.D = 0)
    (hpS : c.preState = c.Beta * refSignal) (hpR : c.preRef = refSignal)
    (hlo : c.lowerSatLimit ≤ c.ctrlSignalOffset * c.ctrlSignalScaling)
    (hhi : c.ctrlSignalOffset * c.ctrlSignalScaling ≤ c.upperSatLimit) :
    (UpdatePIDControl .parallel dt c (c.Beta * refSignal) refSignal).1
        = { c with P := 0 }
    ∧ (UpdatePIDControl .parallel dt c (c.Beta * refSignal) refSignal).2
        = c.ctrlSignalOffset * c.ctrlSignalScaling := by
  have hsat : ∀ sg : ℝ, sg = c.ctrlSignalOffset * c.ctrlSignalScaling →
      (if sg < c.lowerSatLimit then c.lowerSatLimit
       else if sg > c.upperSatLimit then c.upperSatLimit else sg)
        = c.ctrlSignalOffset * c.ctrlSignalScaling := by
    intro sg h
    rw [h, if_neg (not_lt.mpr hlo), if_neg (not_lt.mpr hhi)]
  constructor
  · simp only [UpdatePIDControl, hflag, Bool.false_eq_true, if_false]
    ext <;> try rfl
    · ring
    · rw [hD, hpS, hpR]; ring
    · exact hpS.symm
    · exact hpR.symm
  · simp only [UpdatePIDControl, hflag, Bool.false_eq_true, if_false]
    exact hsat _ (by rw [hI, hD, hpS, hpR]; ring)

/-- Iterating equilibrium calls from a controller satisfying the
equilibrium hypotheses keeps the controller fixed except for P = 0. -/
theorem iteratePID_parallel_equilibrium (dt : ℝ) (c : PIDController) (refSignal : ℝ)
    (hflag : c.useIntegralAction = false) (hI : c.I = 0) (hD : c.D = 0)
    (hpS : c.preState = c.Beta * refSignal) (hpR : c.preRef = refSignal)
    (hlo : c.lowerSatLimit ≤ c.ctrlSignalOffset * c.ctrlSignalScaling)
    (hhi : c.ctrlSignalOffset * c.ctrlSignalScaling ≤ c.upperSatLimit) :
    ∀ n : ℕ, iteratePID .parallel dt c (c.Beta * refSignal) refSignal (n + 1)
      = { c with P := 0 } := by
  intro n
  induction n with
  | zero =>
    simp only [iteratePID]
    exact (UpdatePIDControl_parallel_equilibrium_step dt c refSignal
      hflag hI hD hpS hpR hlo hhi).1
  | succ n ih =>
    show (UpdatePIDControl .parallel dt
        (iteratePID .parallel dt c (c.Beta * refSignal) refSignal (n + 1))
        (c.Beta * refSignal) refSignal).1 = { c with P := 0 }
    rw [ih]
    exact (UpdatePIDControl_parallel_equilibrium_step dt { c with P := 0 } refSignal
      hflag hI hD hpS hpR hlo hhi).1

/-- C8 amended: at equilibrium (state = Beta * reference) every call of
UpdatePIDControl, in either form, yields P = 0; and in the parallel-form
build with useIntegralAction false, I and D starting at zero, the stored
history matching the constant state and reference, and offset*scaling
within the saturation limits, every call in the iterated sequence returns
exactly ctrlSignalOffset * ctrlSignalScaling. -/
theorem UpdatePIDControl_equilibrium_settles :
    (∀ (form : PIDForm) (dt : ℝ) (c : PIDController) (refSignal : ℝ),
        (UpdatePIDControl form dt c (c.Beta * refSignal) refSignal).1.P = 0)
    ∧ ∀ (dt : ℝ) (c : PIDController) (refSignal : ℝ) (n : ℕ),
        c.useIntegralAction = false → c.I = 0 → c.D = 0 →
        c.preState = c.Beta * refSignal → c.preRef = refSignal →
        c.lowerSatLimit ≤ c.ctrlSignalOffset * c.ctrlSignalScaling →
        c.ctrlSignalOffset * c.ctrlSignalScaling ≤ c.upperSatLimit →
        (UpdatePIDControl .parallel dt
            (iteratePID .parallel dt c (c.Beta * refSignal) refSignal n)
            (c.Beta * refSignal) refSignal).2
          = c.ctrlSignalOffset * c.ctrlSignalScaling := by
  constructor
  · intro form dt c refSignal
    simp only [UpdatePIDControl]
    ring
  · intro dt c refSignal n hflag hI hD hpS hpR hlo hhi
    cases n with
    | zero =>
      exact (UpdatePIDControl_parallel_equilibrium_step dt c refSignal
        hflag hI hD hpS hpR hlo hhi).2
    | succ n =>
      rw [iteratePID_parallel_equilibrium dt c refSignal hflag hI hD hpS hpR hlo hhi n]
      exact (UpdatePIDControl_parallel_equilibrium_step dt { c with P := 0 } refSignal
        hflag hI hD hpS hpR hlo hhi).2

/-- A concrete controller satisfying all the equilibrium hypotheses:
Beta = 1/2, reference 2, state 1, matched history, offset 3, scaling 2,
saturation limits 0 and 100 (so the resting output 6 is in range). -/
noncomputable def c8w : PIDController :=
  ⟨1, 1, 1, 1, 1 / 2, 1, 1, 0, 0, 0, 1, 2, 100, 0, 2, 3, false⟩

/-- Witness for C8: on c8w the first call at equilibrium has P = 0 and the
second call in the iterated sequence returns offset*scaling = 6. -/
theorem UpdatePIDControl_equilibrium_settles_witness :
    (UpdatePIDControl .parallel 1 c8w (c8w.Beta * 2) 2).1.P = 0
    ∧ (UpdatePIDControl .parallel 1
        (iteratePID .parallel 1 c8w (c8w.Beta * 2) 2 1) (c8w.Beta * 2) 2).2
      = c8w.ctrlSignalOffset * c8w.ctrlSignalScaling :=
  ⟨UpdatePIDControl_equilibrium_settles.1 .parallel 1 c8w 2,
   UpdatePIDControl_equilibrium_settles.2 1 c8w 2 1 rfl rfl rfl
    (by norm_num [c8w]) rfl (by norm_num [c8w]) (by norm_num [c8w])⟩

/-! ## Motor control (motor_control.c) -/

/-- The MotorControlErrorStatus return codes. -/
inductive MotorControlErrorStatus where
  | MOTORCTRL_OK
  | MOTORCTRL_ERROR
  deriving DecidableEq

/-- The motor-control state touched by the sampling-task functions: the
MotorControlPrintSamplingTaskHandle global (none models a NULL xTaskHandle,
some t a handle on live task t) and the scheduler's set of live tasks. -/
structure MotorCtrlState where
  MotorControlPrintSamplingTaskHandle : Option Nat
  liveTasks : List Nat
  deriving DecidableEq

/-- The FreeRTOS vTaskDelete call, modelled as removing the task from the
scheduler's live set. -/
def vTaskDelete (t : Nat) (s : MotorCtrlState) : MotorCtrlState :=
  { s with liveTasks := s.liveTasks.erase t }

/-- StopMotorControlSamplingTask: if the handle is non-NULL, delete the
task, null the handle and return MOTORCTRL_OK; otherwise return
MOTORCTRL_ERROR. -/
def StopMotorControlSamplingTask (s : MotorCtrlState) :
    MotorCtrlState × MotorControlErrorStatus :=
  match s.MotorControlPrintSamplingTaskHandle with
  | some t =>
    ({ vTaskDelete t s with MotorControlPrintSamplingTaskHandle := none },
     .MOTORCTRL_OK)
  | none => (s, .MOTORCTRL_ERROR)

/-! ## Claim C9 -/

/-- C9: StopMotorControlSamplingTask deletes the sampling task cleanly
exactly when one exists: with a non-NULL handle on task t it removes t
from the live tasks, nulls the handle and returns MOTORCTRL_OK; with a
NULL handle it returns MOTORCTRL_ERROR and leaves the state unchanged. -/
theorem StopMotorControlSamplingTask_correct :
    (∀ (s : MotorCtrlState) (t : Nat),
        s.MotorControlPrintSamplingTaskHandle = some t →
        (StopMotorControlSamplingTask s).2 = .MOTORCTRL_OK
        ∧ (StopMotorControlSamplingTask s).1.MotorControlPrintSamplingTaskHandle = none
        ∧ (StopMotorControlSamplingTask s).1.liveTasks = s.liveTasks.erase t)
    ∧ ∀ s : MotorCtrlState,
        s.MotorControlPrintSamplingTaskHandle = none →
        StopMotorControlSamplingTask s = (s, .MOTORCTRL_ERROR) := by
  constructor
  · intro s t h
    simp [StopMotorControlSamplingTask, h, vTaskDelete]
  · intro s h
    simp [StopMotorControlSamplingTask, h]

/-- Witness for C9: a state with handle on task 7 (live tasks 7 and 3) is
stopped with MOTORCTRL_OK and task 7 deleted; a state with a NULL handle
is returned unchanged with MOTORCTRL_ERROR. -/
theorem StopMotorControlSamplingTask_correct_witness :
    ((StopMotorControlSamplingTask ⟨some 7, [7, 3]⟩).2 = .MOTORCTRL_OK
      ∧ (StopMotorControlSamplingTask
          ⟨some 7, [7, 3]⟩).1.MotorControlPrintSamplingTaskHandle = none
      ∧ (StopMotorControlSamplingTask ⟨some 7, [7, 3]⟩).1.liveTasks
        = ([7, 3] : List Nat).erase 7)
    ∧ StopMotorControlSamplingTask ⟨none, [3]⟩
      = (⟨none, [3]⟩, .MOTORCTRL_ERROR) :=
  ⟨StopMotorControlSamplingTask_correct.1 ⟨some 7, [7, 3]⟩ 7 rfl,
   StopMotorControlSamplingTask_correct.2 ⟨none, [3]⟩ rfl⟩

/-! ## Claim C10 -/

/-- The MotorControlValues_TypeDef struct of four uint16_t motor control
values, modelled over the naturals. -/
structure MotorControlValues_TypeDef where
  Motor1 : ℕ
  Motor2 : ℕ
  Motor3 : ℕ
  Motor4 : ℕ
  deriving DecidableEq

/-- The ccrVal computation shared by SetMotor1 through SetMotor4:
ESC_MIN_OUTPUT + ctrlVal * (ESC_MAX_OUTPUT - ESC_MIN_OUTPUT) / UINT16_MAX.
Modelled from the spec: ESC_MIN_OUTPUT and ESC_MAX_OUTPUT are configuration
constants in the absent motor_control.h, kept here as parameters; the
32-bit unsigned arithmetic is modelled exactly (no wrap), matching the
claim's exactness assumption, with C unsigned division as truncating
natural division. -/
def motorCcrVal (escMinOutput escMaxOutput ctrlVal : ℕ) : ℕ :=
  escMinOutput + ctrlVal * (escMaxOutput - escMinOutput) / 65535

/-- SetMotor1: stores ctrlVal in Motor1 and computes the timer compare
value handed to the PWM channel. -/
def SetMotor1 (escMinOutput escMaxOutput : ℕ) (v : MotorControlValues_TypeDef)
    (ctrlVal : ℕ) : MotorControlValues_TypeDef × ℕ :=
  ({ v with Motor1 := ctrlVal }, motorCcrVal escMinOutput escMaxOutput ctrlVal)

/-- SetMotor2: stores ctrlVal in Motor2 and computes the timer compare
value handed to the PWM channel. -/
def SetMotor2 (escMinOutput escMaxOutput : ℕ) (v : MotorControlValues_TypeDef)
    (ctrlVal : ℕ) : MotorControlValues_TypeDef × ℕ :=
  ({ v with Motor2 := ctrlVal }, motorCcrVal escMinOutput escMaxOutput ctrlVal)

/-- SetMotor3: stores ctrlVal in Motor3 and computes the timer compare
value handed to the PWM channel. -/
def SetMotor3 (escMinOutput escMaxOutput : ℕ) (v : MotorControlValues_TypeDef)
    (ctrlVal : ℕ) : MotorControlValues_TypeDef × ℕ :=
  ({ v with Motor3 := ctrlVal }, motorCcrVal escMinOutput escMaxOutput ctrlVal)

/-- SetMotor4: stores ctrlVal in Motor4 and computes the timer compare
value handed to the PWM channel. -/
def SetMotor4 (escMinOutput escMaxOutput : ℕ) (v : MotorControlValues_TypeDef)
    (ctrlVal : ℕ) : MotorControlValues_TypeDef × ℕ :=
  ({ v with Motor4 := ctrlVal }, motorCcrVal escMinOutput escMaxOutput ctrlVal)

/-- C10: each SetMotorN stores ctrlVal unchanged in its own field and
leaves the three other motor fields unchanged; and (assuming
ESC_MIN_OUTPUT at most ESC_MAX_OUTPUT and ctrlVal at most 65535, with the
arithmetic exact) the computed compare value lies between ESC_MIN_OUTPUT
and ESC_MAX_OUTPUT and is monotonically non-decreasing in ctrlVal. -/
theorem SetMotor_stores_and_ccr_in_range
    (escMinOutput escMaxOutput ctrlVal ctrlVal' : ℕ) (v : MotorControlValues_TypeDef)
    (h1 : escMinOutput ≤ escMaxOutput) (h2 : ctrlVal ≤ 65535)
    (h3 : ctrlVal ≤ ctrlVal') :
    ((SetMotor1 escMinOutput escMaxOutput v ctrlVal).1
        = { v with Motor1 := ctrlVal }
      ∧ (SetMotor2 escMinOutput escMaxOutput v ctrlVal).1
        = { v with Motor2 := ctrlVal }
      ∧ (SetMotor3 escMinOutput escMaxOutput v ctrlVal).1
        = { v with Motor3 := ctrlVal }
      ∧ (SetMotor4 escMinOutput escMaxOutput v ctrlVal).1
        = { v with Motor4 := ctrlVal }
      ∧ (SetMotor1 escMinOutput escMaxOutput v ctrlVal).2
        = motorCcrVal escMinOutput escMaxOutput ctrlVal
      ∧ (SetMotor2 escMinOutput escMaxOutput v ctrlVal).2
        = motorCcrVal escMinOutput escMaxOutput ctrlVal
      ∧ (SetMotor3 escMinOutput escMaxOutput v ctrlVal).2
        = motorCcrVal escMinOutput escMaxOutput ctrlVal
      ∧ (SetMotor4 escMinOutput escMaxOutput v ctrlVal).2
        = motorCcrVal escMinOutput escMaxOutput ctrlVal)
    ∧ escMinOutput ≤ motorCcrVal escMinOutput escMaxOutput ctrlVal
    ∧ motorCcrVal escMinOutput escMaxOutput ctrlVal ≤ escMaxOutput
    ∧ motorCcrVal escMinOutput escMaxOutput ctrlVal
      ≤ motorCcrVal escMinOutput escMaxOutput ctrlVal' := by
  refine ⟨⟨rfl, rfl, rfl, rfl, rfl, rfl, rfl, rfl⟩, ?_, ?_, ?_⟩
  · exact Nat.le_add_right _ _
  · have hq : ctrlVal * (escMaxOutput - escMinOutput) / 65535
        ≤ escMaxOutput - escMinOutput := by
      calc ctrlVal * (escMaxOutput - escMinOutput) / 65535
          ≤ 65535 * (escMaxOutput - escMinOutput) / 65535 :=
            Nat.div_le_div_right (Nat.mul_le_mul_right _ h2)
        _ = escMaxOutput - escMinOutput :=
            Nat.mul_div_cancel_left _ (by norm_num)
    unfold motorCcrVal
    omega
  · exact Nat.add_le_add_left
      (Nat.div_le_div_right (Nat.mul_le_mul_right _ h3)) _

/-- Witness for C10 at ESC_MIN_OUTPUT = 2000, ESC_MAX_OUTPUT = 4000,
ctrlVal = 300 and 65535. -/
theorem SetMotor_stores_and_ccr_in_range_witness :
    (SetMotor1 2000 4000 ⟨1, 2, 3, 4⟩ 300).1
      = { Motor1 := 300, Motor2 := 2, Motor3 := 3, Motor4 := 4 }
    ∧ 2000 ≤ motorCcrVal 2000 4000 300
    ∧ motorCcrVal 2000 4000 300 ≤ 4000
    ∧ motorCcrVal 2000 4000 300 ≤ motorCcrVal 2000 4000 65535 :=
  let h := SetMotor_stores_and_ccr_in_range 2000 4000 300 65535 ⟨1, 2, 3, 4⟩
    (by norm_num) (by norm_num) (by norm_num)
  ⟨h.1.1, h.2.1, h.2.2.1, h.2.2.2⟩

end Fcb
